import Mathlib

/-!
Shallow embedding of the Bundl order-lifecycle engine.

The definitions below are transcribed from the TypeScript/Lua sources:
  * `src/orders/orders.service.ts`  (OrdersService: createOrder, pledgeToOrder,
    getOrderStatus, getActiveOrdersNear, handleOrderExpiry)
  * the OrdersRedisService (storeOrder, getOrder, deleteOrder, findOrdersNear,
    the scripted pledge Lua, the expired-key subscriber)
  * `src/credits/credits.service.ts` (useCredits, addCredits)
  * `src/constants/app.constants.ts` (APP_CONSTANTS)
  * `src/redis/redis.module.ts` (ioredis client options, keyPrefix)
  * `src/app.module.ts` (AppModule.onModuleInit)

Monetary amounts (amountNeeded, pledge amounts) are decimal numbers in the
source; the engine only ever adds them and compares them with ≤/≥, so they
are modelled over `Int` (every spec scenario uses integral amounts, and no
claim depends on fractional values); credits are integers.  Coordinates are
likewise carried as numbers.  Redis is modelled as three
association maps (string values, sets, geo-indexed sorted sets) keyed by the
*actual* key names.  The ioredis client is configured with `keyPrefix`
(REDIS_PREFIX, default "bundl:"); ioredis prepends this prefix to every key
argument of a command, including the declared KEYS of EVAL, but it cannot
rewrite key names built as string literals inside a Lua script body.
-/

namespace Bundl

abbrev UserId := String
abbrev OrderId := String

/-- OrderStatus enum from `src/entities/order.entity.ts`. -/
inductive OrderStatus
  | ACTIVE
  | EXPIRED
  | COMPLETED
deriving DecidableEq, Repr

/-- `pledgeMap` column: a JSON object mapping user ids to pledged amounts
(keys unique).  Modelled as an association list. -/
abbrev PledgeMap := List (UserId × Int)

/-- Order entity (`src/entities/order.entity.ts`), restricted to stored
columns.  The virtual response-only fields (phoneNumberMap, note) live in
`OrderView` below. -/
structure Order where
  id : OrderId
  status : OrderStatus
  creatorId : UserId
  amountNeeded : Int
  pledgeMap : PledgeMap
  totalPledge : Int
  totalUsers : Nat
  platform : String
  latitude : Int
  longitude : Int
deriving DecidableEq, Repr

/-- Update an association list at a key: replace the first binding in place,
or append a fresh binding (JS object assignment / Lua table assignment). -/
def setAssoc {κ α : Type} [BEq κ] (l : List (κ × α)) (k : κ) (v : α) : List (κ × α) :=
  match l with
  | [] => [(k, v)]
  | (k', v') :: rest => if k' == k then (k, v) :: rest else (k', v') :: setAssoc rest k v

/-- JS `order.pledgeMap[userId]` (undefined when absent). -/
def pmLookup (pm : PledgeMap) (u : UserId) : Option Int :=
  pm.lookup u

/-- Lua `order.pledgeMap[userId] = v`. -/
def pmSet (pm : PledgeMap) (u : UserId) (v : Int) : PledgeMap :=
  setAssoc pm u v

/-- A Redis string entry: the serialized order snapshot plus its remaining
TTL (`none` = the key is persistent / has no expiry). -/
structure StrEntry where
  value : Order
  ttl : Option Nat
deriving DecidableEq, Repr

/-- A Redis set entry (the `order:{id}:participants` sets). -/
structure SetEntry where
  members : List UserId
  ttl : Option Nat
deriving DecidableEq, Repr

/-- The live cache.  `geo` maps a sorted-set key to its members paired with
(longitude, latitude). -/
structure RedisState where
  strings : List (String × StrEntry)
  sets : List (String × SetEntry)
  geo : List (String × List (String × Int × Int))
deriving DecidableEq, Repr

def RedisState.empty : RedisState := ⟨[], [], []⟩

/-- GET: the string value stored at `k`, if any. -/
def RedisState.getStr (r : RedisState) (k : String) : Option Order :=
  (r.strings.lookup k).map (·.value)

/-- SETEX: store a value with an expiry. -/
def RedisState.setex (r : RedisState) (k : String) (seconds : Nat) (v : Order) : RedisState :=
  { r with strings := setAssoc r.strings k ⟨v, some seconds⟩ }

/-- Plain SET: stores the value and, per Redis semantics, discards any TTL
the key previously had (the pledge script does not pass KEEPTTL). -/
def RedisState.setPlain (r : RedisState) (k : String) (v : Order) : RedisState :=
  { r with strings := setAssoc r.strings k ⟨v, none⟩ }

/-- DEL: removes the key whatever its type. -/
def RedisState.del (r : RedisState) (k : String) : RedisState :=
  { strings := r.strings.filter (fun p => p.1 != k)
  , sets := r.sets.filter (fun p => p.1 != k)
  , geo := r.geo.filter (fun p => p.1 != k) }

/-- SADD of a single member. -/
def RedisState.sadd (r : RedisState) (k : String) (m : UserId) : RedisState :=
  let cur := (r.sets.lookup k).getD ⟨[], none⟩
  let mems := if m ∈ cur.members then cur.members else cur.members ++ [m]
  { r with sets := setAssoc r.sets k { cur with members := mems } }

/-- SMEMBERS. -/
def RedisState.smembers (r : RedisState) (k : String) : List UserId :=
  ((r.sets.lookup k).getD ⟨[], none⟩).members

/-- EXPIRE: set a TTL on an existing key of either kind. -/
def RedisState.setTtl (r : RedisState) (k : String) (seconds : Nat) : RedisState :=
  { r with
    strings := r.strings.map (fun p => if p.1 == k then (p.1, { p.2 with ttl := some seconds }) else p)
    sets := r.sets.map (fun p => if p.1 == k then (p.1, { p.2 with ttl := some seconds }) else p) }

/-- GEOADD of one member at (longitude, latitude). -/
def RedisState.geoadd (r : RedisState) (k : String) (lon lat : Int) (member : String) : RedisState :=
  let cur := (r.geo.lookup k).getD []
  { r with geo := setAssoc r.geo k (setAssoc cur member (lon, lat)) }

/-- ZREM of one member. -/
def RedisState.zrem (r : RedisState) (k : String) (member : String) : RedisState :=
  match r.geo.lookup k with
  | none => r
  | some ms => { r with geo := setAssoc r.geo k (ms.filter (fun p => p.1 != member)) }

/-- Members recorded in the geo-indexed set at key `k`. -/
def RedisState.geoMembers (r : RedisState) (k : String) : List String :=
  ((r.geo.lookup k).getD []).map (·.1)

/-- GEORADIUS filters the members of the geo set by distance to the query
point.  Redis uses the great-circle (haversine) distance in km; the claims in
this development rely only on two properties shared by any metric — a member
stored at the query point itself is within every positive radius, and the
result is a subset of the stored members — so a computable stand-in
comparison on coordinate differences is used for the distance test. -/
def withinRadius (qlon qlat mlon mlat radiusKm : Int) : Bool :=
  (mlon - qlon) ^ 2 + (mlat - qlat) ^ 2 ≤ radiusKm ^ 2

def RedisState.georadius (r : RedisState) (k : String) (lon lat radiusKm : Int) : List String :=
  (((r.geo.lookup k).getD []).filter
    (fun p => withinRadius lon lat p.2.1 p.2.2 radiusKm)).map (·.1)

/-! ### Constants (`src/constants/app.constants.ts`, `src/redis/redis.module.ts`) -/

/-- ioredis `keyPrefix` = REDIS_PREFIX (default "bundl:"). -/
def redisNamespace : String := "bundl:"

/-- APP_CONSTANTS.REDIS_KEYS.ORDER_PREFIX. -/
def orderKeyTag : String := "order:"

/-- APP_CONSTANTS.REDIS_KEYS.ORDER_PARTICIPANTS_PREFIX (also "order:"). -/
def participantsKeyTag : String := "order:"

/-- APP_CONSTANTS.REDIS_KEYS.ORDERS_GEO_KEY. -/
def ordersGeoKey : String := "orders:geo"

/-- The client-side key rewriting ioredis performs for every key argument. -/
def pfx (k : String) : String := redisNamespace ++ k

/-- The key the service code builds for an order snapshot (before the client
rewriting). -/
def orderKey (orderId : OrderId) : String := orderKeyTag ++ orderId

/-- The key the service code builds for an order's participants set. -/
def participantsKey (orderId : OrderId) : String :=
  participantsKeyTag ++ orderId ++ ":participants"

def CREDIT_COST_PER_ACTION : Int := 1

def DEFAULT_ORDER_EXPIRY_SECONDS : Nat := 600

def DEFAULT_SEARCH_RADIUS_KM : Int := 5

/-- The keyspace-notification channel subscribed in
OrdersRedisService.onModuleInit. -/
def keyeventChannel : String := "__keyevent@0__:expired"

/-- JS `message.startsWith(p)`: structural implementation over the character
lists of the two strings. -/
def strStarts (s p : String) : Bool := p.data.isPrefixOf s.data

/-- JS `message.split(':')` on the character list: split at every separator,
keeping empty segments (so "a:".split yields ["a", ""]). -/
def splitSegs (c : Char) : List Char → List (List Char)
  | [] => [[]]
  | x :: xs =>
    match splitSegs c xs with
    | [] => [[x]]
    | g :: gs => if x = c then [] :: g :: gs else (x :: g) :: gs

/-- JS `message.split(':')` as a list of strings. -/
def splitColon (s : String) : List String :=
  (splitSegs ':' s.data).map (fun cs => String.mk cs)

/-! ### The scripted pledge (Lua body of OrdersRedisService.pledgeToOrder) -/

/-- Outcome of the Lua pledge script: `{false, reason, nil}` or
`{true, 'Pledge successful', updatedOrder}`. -/
inductive ScriptOut
  | failed (message : String)
  | ok (message : String) (updatedOrder : Order)
deriving DecidableEq, Repr

/-- The Lua script, step for step.  `key` and `participantsK` are the two
declared KEYS (already rewritten by the ioredis keyPrefix); the ZREM target
`'orders:geo'` is a string literal inside the script body and is therefore
*not* rewritten, and its member argument is `key` (the already-prefixed
KEYS[1]). -/
def pledgeLuaScript (r : RedisState) (key participantsK : String)
    (userId : UserId) (pledgeAmount : Int) : RedisState × ScriptOut :=
  match r.getStr key with
  | none => (r, .failed "Order not found")
  | some order =>
    if order.status ≠ OrderStatus.ACTIVE then
      (r, .failed "Order is not active")
    else
      let orderAmount := order.amountNeeded
      let orderPledge := order.totalPledge
      if orderPledge ≥ orderAmount then
        (r, .failed "Order is already fully pledged")
      else
        let isNewUser := (pmLookup order.pledgeMap userId).isNone
        let currentPledge := (pmLookup order.pledgeMap userId).getD 0
        let pm1 := pmSet order.pledgeMap userId (currentPledge + pledgeAmount)
        let totalPledge1 := orderPledge + pledgeAmount
        let totalUsers1 := if isNewUser then order.totalUsers + 1 else order.totalUsers
        let r1 := if isNewUser then r.sadd participantsK userId else r
        let status1 :=
          if totalPledge1 ≥ orderAmount then OrderStatus.COMPLETED else order.status
        let updated := { order with
          pledgeMap := pm1, totalPledge := totalPledge1,
          totalUsers := totalUsers1, status := status1 }
        let r2 := r1.setPlain key updated
        let r3 :=
          if status1 = OrderStatus.COMPLETED then
            ((r2.zrem "orders:geo" key).del key).del participantsK
          else r2
        (r3, .ok "Pledge successful" updated)

/-- OrdersRedisService.pledgeToOrder: runs the script with the two KEYS;
ioredis rewrites both declared KEYS with the client keyPrefix. -/
def redisPledgeToOrder (r : RedisState) (orderId : OrderId) (userId : UserId)
    (pledgeAmount : Int) : RedisState × ScriptOut :=
  pledgeLuaScript r (pfx (orderKey orderId)) (pfx (participantsKey orderId))
    userId pledgeAmount

/-! ### OrdersRedisService: storeOrder / getOrder / deleteOrder / findOrdersNear -/

/-- OrdersRedisService.storeOrder: SETEX the snapshot, GEOADD the geo entry
(member = the unrewritten key string), SADD the creator into the participants
set and EXPIRE it with the same TTL. -/
def storeOrder (r : RedisState) (order : Order)
    (expirySeconds : Nat := DEFAULT_ORDER_EXPIRY_SECONDS) : RedisState :=
  let key := orderKey order.id
  let r1 := r.setex (pfx key) expirySeconds order
  let r2 := r1.geoadd (pfx ordersGeoKey) order.longitude order.latitude key
  let pk := participantsKey order.id
  let r3 := r2.sadd (pfx pk) order.creatorId
  r3.setTtl (pfx pk) expirySeconds

/-- OrdersRedisService.getOrder. -/
def getOrderRedis (r : RedisState) (orderId : OrderId) : Option Order :=
  r.getStr (pfx (orderKey orderId))

/-- OrdersRedisService.deleteOrder: ZREM via the client (geo key rewritten,
member is the unrewritten key string), then DEL both keys. -/
def deleteOrderRedis (r : RedisState) (orderId : OrderId) : RedisState :=
  let key := orderKey orderId
  let pk := participantsKey orderId
  let r1 := r.zrem (pfx ordersGeoKey) key
  (r1.del (pfx key)).del (pfx pk)

/-- OrdersRedisService.findOrdersNear: GEORADIUS, then GET each returned
member (the client rewrites the member string into a full key), dropping
misses. -/
def findOrdersNear (r : RedisState) (longitude latitude : Int)
    (radiusKm : Int := DEFAULT_SEARCH_RADIUS_KM) : List Order :=
  let geoResults := r.georadius (pfx ordersGeoKey) longitude latitude radiusKm
  geoResults.filterMap (fun key => r.getStr (pfx key))

/-! ### Credit ledger (`src/credits/credits.service.ts`) -/

/-- User row (`src/entities/user.entity.ts`, restricted to the fields the
order engine reads). -/
structure UserRow where
  phoneNumber : String
  credits : Int
deriving DecidableEq, Repr

abbrev UsersTable := List (UserId × UserRow)

/-- CreditsService.useCredits: under a row lock, return false without any
change when the balance is insufficient, otherwise decrement.  A missing row
raises BadRequestException("User not found"), modelled as `Except.error`. -/
def useCredits (users : UsersTable) (userId : UserId) (amount : Int) :
    Except String (Bool × UsersTable) :=
  match users.lookup userId with
  | none => .error "User not found"
  | some u =>
    if u.credits < amount then .ok (false, users)
    else .ok (true, setAssoc users userId { u with credits := u.credits - amount })

/-- CreditsService.addCredits: under a row lock, increment; a missing row
raises BadRequestException("User not found"). -/
def addCredits (users : UsersTable) (userId : UserId) (amount : Int) :
    Except String UsersTable :=
  match users.lookup userId with
  | none => .error "User not found"
  | some u => .ok (setAssoc users userId { u with credits := u.credits + amount })

/-! ### System state and events -/

/-- Internal engine events (EventEmitter2 emissions and EventsService push
fan-outs), recorded for the frame of each operation. -/
inductive Evt
  | orderExpiredEmitted (orderId : OrderId)
  | pledgeFailed (userId : UserId) (reason : String)
  | pledgeSuccess (orderId : OrderId) (userId : UserId)
  | orderCompleted (orderId : OrderId)
  | orderExpiredNotice (orderId : OrderId)
deriving DecidableEq, Repr

/-- The two durable stores plus the live cache and the emitted events:
`users` is the relational user table (credit ledger), `orders` the relational
order table, `redis` the live cache. -/
structure SysState where
  users : UsersTable
  orders : List (OrderId × Order)
  redis : RedisState
  events : List Evt
deriving DecidableEq, Repr

/-! ### OrdersService.handleOrderExpiry -/

/-- The per-pledger refund loop: each addCredits call is wrapped in
try/catch, a failure is logged and the loop continues. -/
def refundEach (users : UsersTable) (ids : List UserId) : UsersTable :=
  ids.foldl (fun acc i =>
    match addCredits acc i CREDIT_COST_PER_ACTION with
    | .ok acc' => acc'
    | .error _ => acc) users

/-- OrdersService.handleOrderExpiry, step for step: load the row (return when
missing — there is no check of the stored status), set it EXPIRED and save,
delete the cache entries, refund the creator (this addCredits call is *not*
wrapped in try/catch, so its failure propagates), then refund every
pledge-map key other than the creator with failures swallowed, and emit the
expired notification. -/
def handleOrderExpiry (s : SysState) (orderId : OrderId) : Except String SysState :=
  match s.orders.lookup orderId with
  | none => .ok s
  | some order =>
    let order1 := { order with status := OrderStatus.EXPIRED }
    let s1 := { s with orders := setAssoc s.orders orderId order1 }
    let s2 := { s1 with redis := deleteOrderRedis s1.redis orderId }
    match addCredits s2.users order1.creatorId CREDIT_COST_PER_ACTION with
    | .error e => .error e
    | .ok users1 =>
      let pledgerIds := (order1.pledgeMap.map Prod.fst).filter (fun i => i ≠ order1.creatorId)
      let users2 := refundEach users1 pledgerIds
      .ok { s2 with users := users2
                  , events := s2.events ++ [Evt.orderExpiredNotice orderId] }

/-! ### OrdersService.pledgeToOrder -/

structure PledgeDto where
  orderId : OrderId
  pledgeAmount : Int
deriving DecidableEq, Repr

/-- Errors surfaced by pledgeToOrder: BadRequestException carries the script
reason (or the credit-check failure); any other thrown error is a store
error. -/
inductive PledgeErr
  | badRequest (msg : String)
  | storeError (msg : String)
deriving DecidableEq, Repr

/-- orderRepository.update({id}, {pledgeMap, totalPledge, totalUsers,
status}): partial update of the matching row (no-op when no row matches). -/
def orderRepoUpdate (orders : List (OrderId × Order)) (id : OrderId) (upd : Order) :
    List (OrderId × Order) :=
  match orders.lookup id with
  | none => orders
  | some row => setAssoc orders id { row with
      pledgeMap := upd.pledgeMap, totalPledge := upd.totalPledge,
      totalUsers := upd.totalUsers, status := upd.status }

/-- OrdersService.pledgeToOrder.  `dbUpdateOk` injects whether the durable
orderRepository.update call succeeds; when it throws, the outer catch sees an
error that is not a BadRequestException and refunds the debited credit.  The
phone-number enrichment of the completed response only shapes the returned
view and is omitted here; the returned `Order` is the script's updated
order. -/
def pledgeToOrderService (s0 : SysState) (userId : UserId) (dto : PledgeDto)
    (dbUpdateOk : Bool) : Except PledgeErr Order × SysState :=
  match useCredits s0.users userId CREDIT_COST_PER_ACTION with
  | .error e => (.error (.badRequest e), s0)
  | .ok (false, _) => (.error (.badRequest "Not enough credits"), s0)
  | .ok (true, users1) =>
    let s1 := { s0 with users := users1 }
    let res := redisPledgeToOrder s1.redis dto.orderId userId dto.pledgeAmount
    let s2 := { s1 with redis := res.1 }
    match res.2 with
    | .failed message =>
      match addCredits s2.users userId CREDIT_COST_PER_ACTION with
      | .error e => (.error (.storeError e), s2)
      | .ok users2 =>
        (.error (.badRequest message),
         { s2 with users := users2
                 , events := s2.events ++ [Evt.pledgeFailed userId message] })
    | .ok _ updatedOrder =>
      if dbUpdateOk then
        let s3 := { s2 with orders := orderRepoUpdate s2.orders updatedOrder.id updatedOrder }
        let s4 := { s3 with events := s3.events ++ [Evt.pledgeSuccess updatedOrder.id userId] }
        if updatedOrder.status = OrderStatus.COMPLETED then
          (.ok updatedOrder, { s4 with events := s4.events ++ [Evt.orderCompleted updatedOrder.id] })
        else
          (.ok updatedOrder, s4)
      else
        match addCredits s2.users userId CREDIT_COST_PER_ACTION with
        | .error e => (.error (.storeError e), s2)
        | .ok users2 => (.error (.storeError "db update failed"), { s2 with users := users2 })

/-! ### OrdersService.getOrderStatus -/

/-- The response view: the (possibly redacted) order plus the virtual
phoneNumberMap / note fields. -/
structure OrderView where
  order : Order
  phoneNumberMap : Option (List (String × Int))
  note : Option String
deriving DecidableEq, Repr

inductive StatusErr
  | notFound (msg : String)
deriving DecidableEq, Repr

/-- The phoneNumberMap built for completed orders: for every pledger id whose
user row is found, map the phone number to the pledged amount (JS guards on
truthy phoneNumber and truthy pledgeMap entry). -/
def buildPhoneMap (users : UsersTable) (pm : PledgeMap) : List (String × Int) :=
  (pm.map Prod.fst).foldl (fun acc uid =>
    match users.lookup uid with
    | none => acc
    | some row =>
      if row.phoneNumber ≠ "" ∧ (pmLookup pm uid).getD 0 ≠ 0 then
        setAssoc acc row.phoneNumber ((pmLookup pm uid).getD 0)
      else acc) []

/-- OrdersService.getOrderStatus, step for step: read the cache; on a miss
read the database, throw NotFoundException("Order not found") when absent,
and re-store the row into the cache (with the default expiry) unless its
status is COMPLETED; then throw NotFoundException("Order not found or you are
not a participant") when the caller's pledge-map entry is missing (JS also
treats a zero entry as falsy); otherwise answer according to the status,
redacting the pledge map to the caller's own entry when ACTIVE. -/
def getOrderStatusService (s : SysState) (userId : UserId) (orderId : OrderId) :
    Except StatusErr OrderView × SysState :=
  let found : Option (Order × SysState) :=
    match getOrderRedis s.redis orderId with
    | some o => some (o, s)
    | none =>
      match s.orders.lookup orderId with
      | none => none
      | some o =>
        if o.status ≠ OrderStatus.COMPLETED then
          some (o, { s with redis := storeOrder s.redis o })
        else some (o, s)
  match found with
  | none => (.error (.notFound "Order not found"), s)
  | some (order, s1) =>
    if (pmLookup order.pledgeMap userId).getD 0 = 0 then
      (.error (.notFound "Order not found or you are not a participant"), s1)
    else if order.status = OrderStatus.COMPLETED then
      (.ok ⟨order, some (buildPhoneMap s1.users order.pledgeMap),
            some ("Order Completed Successfully with " ++
                  toString (order.pledgeMap.map Prod.fst).length ++ " pariticipants.")⟩, s1)
    else if order.status = OrderStatus.EXPIRED then
      (.ok ⟨order, none, some "Refunded 1 credit back for expiry"⟩, s1)
    else
      (.ok ⟨{ order with pledgeMap := [(userId, (pmLookup order.pledgeMap userId).getD 0)] },
            none, none⟩, s1)

/-! ### Expiry watcher (OrdersRedisService.onModuleInit message handler) -/

/-- The subscriber callback: on the expired-key channel, if the expired key
starts with "bundl:" ++ ORDER_PREFIX, emit ORDER_EXPIRED with
`message.split(':')[2]` as the order id; otherwise do nothing.  The published
message is the actual Redis key name, which includes the client keyPrefix. -/
def expiryMessageHandler (channel message : String) : List Evt :=
  if channel == keyeventChannel && strStarts message (redisNamespace ++ orderKeyTag) then
    [Evt.orderExpiredEmitted ((splitColon message).getD 2 "")]
  else []

/-! ### Startup (AppModule.onModuleInit and OrdersRedisService.onModuleInit) -/

/-- The environment variables AppModule.onModuleInit reads with getOrThrow. -/
def requiredEnvVars : List String :=
  ["PORT", "DB_HOST", "DB_PORT", "DB_USERNAME", "DB_PASSWORD", "DB_DATABASE",
   "REDIS_HOST", "REDIS_PORT", "REDIS_PREFIX", "JWT_SECRET",
   "REFRESH_TOKEN_SECRET", "JWT_EXPIRES_IN", "FCM_SERVICE_FILE_PATH",
   "ORVIO_API_URL", "ORVIO_API_KEY", "ORVIO_ORG_NAME", "DEBUG_ENABLED",
   "CASHFREE_CLIENT_ID", "CASHFREE_CLIENT_SECRET", "CASHFREE_ENVIRONMENT",
   "APP_URL", "FIREBASE_SERVICE_ACCOUNT_PATH"]

/-- Result of running the startup hooks. -/
structure StartupOutcome where
  started : Bool
  subscribed : List String
  sys : SysState
deriving DecidableEq, Repr

/-- The two module-init hooks of the process: AppModule.onModuleInit reads
the required environment variables and calls process.exit(1) when one is
missing (started = false); OrdersRedisService.onModuleInit duplicates the
client and subscribes to the expired-key channel.  Neither hook reads or
writes the user table, the order table, or the cache, and no scan over
ACTIVE orders occurs anywhere at startup. -/
def systemStartup (env : List (String × String)) (s : SysState) : StartupOutcome :=
  if requiredEnvVars.all (fun v => (env.lookup v).isSome) then
    { started := true, subscribed := [keyeventChannel], sys := s }
  else
    { started := false, subscribed := [], sys := s }

/-! ### Concrete scenarios used to evaluate the code at specific inputs -/

/-- Run handleOrderExpiry and keep the resulting state when it returns
normally (the state is unchanged when it throws). -/
def runExpiry (s : SysState) (orderId : OrderId) : SysState :=
  match handleOrderExpiry s orderId with
  | .ok s1 => s1
  | .error _ => s

/-- The updated order carried by a successful script result. -/
def scriptUpdated : ScriptOut → Option Order
  | .ok _ u => some u
  | .failed _ => none

/-- Scenario for the expiry-idempotence claim: an active order "o3" created
by "e" with pledgers e (50) and f (30), both holding 4 credits after their
debits. -/
def expiryTwiceOrder : Order :=
  { id := "o3", status := .ACTIVE, creatorId := "e", amountNeeded := 200,
    pledgeMap := [("e", 50), ("f", 30)], totalPledge := 80, totalUsers := 2,
    platform := "Zomato", latitude := 10, longitude := 20 }

def expiryTwiceWorld : SysState :=
  { users := [("e", ⟨"+911000000001", 4⟩), ("f", ⟨"+911000000002", 4⟩)]
  , orders := [("o3", expiryTwiceOrder)]
  , redis := storeOrder RedisState.empty expiryTwiceOrder 60
  , events := [] }

/-- Scenario for the refund fan-out claim, first run: the creator "c" never
pledged (created with no initial pledge), the only pledge-map key is "a". -/
def fanoutOrderA : Order :=
  { id := "oA", status := .ACTIVE, creatorId := "c", amountNeeded := 100,
    pledgeMap := [("a", 10)], totalPledge := 10, totalUsers := 1,
    platform := "Z", latitude := 0, longitude := 0 }

def fanoutWorldA : SysState :=
  { users := [("c", ⟨"+911000000003", 0⟩), ("a", ⟨"+911000000004", 0⟩)]
  , orders := [("oA", fanoutOrderA)]
  , redis := storeOrder RedisState.empty fanoutOrderA 60
  , events := [] }

/-- Second run: the creator "c" has no user row, so the unguarded creator
refund throws; pledgers "a" and "b" are valid users awaiting refunds. -/
def fanoutOrderB : Order :=
  { id := "oB", status := .ACTIVE, creatorId := "c", amountNeeded := 100,
    pledgeMap := [("a", 10), ("b", 5)], totalPledge := 15, totalUsers := 2,
    platform := "Z", latitude := 0, longitude := 0 }

def fanoutWorldB : SysState :=
  { users := [("a", ⟨"+911000000004", 0⟩), ("b", ⟨"+911000000005", 0⟩)]
  , orders := [("oB", fanoutOrderB)]
  , redis := storeOrder RedisState.empty fanoutOrderB 60
  , events := [] }

/-- Scenario for the additive-pledge claim: order "o5" needing 100, user "K"
pledges 10 and then 15 through the script. -/
def additiveOrder : Order :=
  { id := "o5", status := .ACTIVE, creatorId := "K", amountNeeded := 100,
    pledgeMap := [], totalPledge := 0, totalUsers := 0,
    platform := "Z", latitude := 0, longitude := 0 }

def additiveRedis0 : RedisState := storeOrder RedisState.empty additiveOrder 600

def additiveStep1 : RedisState × ScriptOut :=
  redisPledgeToOrder additiveRedis0 "o5" "K" 10

/-- Scenario for the completion-cleanup claim: order "o1" at 90 of 100,
completed by a pledge of 60 from "d". -/
def completionOrder : Order :=
  { id := "o1", status := .ACTIVE, creatorId := "c", amountNeeded := 100,
    pledgeMap := [("c", 90)], totalPledge := 90, totalUsers := 1,
    platform := "Z", latitude := 11, longitude := 22 }

def completionRedis0 : RedisState := storeOrder RedisState.empty completionOrder 600

def completionRun : RedisState × ScriptOut :=
  redisPledgeToOrder completionRedis0 "o1" "d" 60

/-- Scenario for the stale-read claim: an order that expires, after which the
participant "f" asks for its status (re-storing the row into the cache) and
then anyone queries for nearby orders at the order's own coordinates. -/
def staleOrder : Order :=
  { id := "o8", status := .ACTIVE, creatorId := "e", amountNeeded := 200,
    pledgeMap := [("e", 50), ("f", 30)], totalPledge := 80, totalUsers := 2,
    platform := "Z", latitude := 10, longitude := 20 }

def staleWorld0 : SysState :=
  { users := [("e", ⟨"+911000000001", 4⟩), ("f", ⟨"+911000000002", 4⟩)]
  , orders := [("o8", staleOrder)]
  , redis := storeOrder RedisState.empty staleOrder 60
  , events := [] }

def staleAfterExpiry : SysState := runExpiry staleWorld0 "o8"

def staleAfterStatus : SysState := (getOrderStatusService staleAfterExpiry "f" "o8").2

/-- Scenario for the TTL-preservation claim: a fresh order with 600 seconds
to live receives a non-completing pledge of 40 from "h". -/
def ttlOrder : Order :=
  { id := "o6", status := .ACTIVE, creatorId := "g", amountNeeded := 100,
    pledgeMap := [], totalPledge := 0, totalUsers := 0,
    platform := "Z", latitude := 1, longitude := 2 }

def ttlRedis0 : RedisState := storeOrder RedisState.empty ttlOrder 600

def ttlRun : RedisState × ScriptOut := redisPledgeToOrder ttlRedis0 "o6" "h" 40

/-- Scenario for the refund-on-error claim: user "b" with 5 credits pledges
40 to the active order "o7"; the scripted pledge succeeds but the durable
orderRepository.update throws. -/
def dbFailOrder : Order :=
  { id := "o7", status := .ACTIVE, creatorId := "b", amountNeeded := 100,
    pledgeMap := [], totalPledge := 0, totalUsers := 0,
    platform := "Z", latitude := 0, longitude := 0 }

def dbFailWorld : SysState :=
  { users := [("b", ⟨"+911000000006", 5⟩)]
  , orders := [("o7", dbFailOrder)]
  , redis := storeOrder RedisState.empty dbFailOrder 600
  , events := [] }

def dbFailRun : Except PledgeErr Order × SysState :=
  pledgeToOrderService dbFailWorld "b" ⟨"o7", 40⟩ false

/-- A world with no matching order at all, used to exercise the
script-failure refund path. -/
def noOrderWorld : SysState :=
  { users := [("b", ⟨"+911000000006", 5⟩)], orders := [], redis := RedisState.empty
  , events := [] }

/-- Scenario for the redaction claim: order "o4" with pledgers h and i;
caller "j" is not a participant. -/
def redactOrder : Order :=
  { id := "o4", status := .ACTIVE, creatorId := "h", amountNeeded := 100,
    pledgeMap := [("h", 20), ("i", 30)], totalPledge := 50, totalUsers := 2,
    platform := "Z", latitude := 0, longitude := 0 }

def redactWorld : SysState :=
  { users := [("h", ⟨"+911000000007", 5⟩), ("i", ⟨"+911000000008", 5⟩),
              ("j", ⟨"+911000000009", 5⟩)]
  , orders := [("o4", redactOrder)]
  , redis := storeOrder RedisState.empty redactOrder 600
  , events := [] }

/-- Scenario for the startup claim: the durable store holds an ACTIVE order
whose TTL fired while the process was down; every required env var is set. -/
def staleActiveOrder : Order :=
  { id := "oX", status := .ACTIVE, creatorId := "e", amountNeeded := 200,
    pledgeMap := [("e", 50)], totalPledge := 50, totalUsers := 1,
    platform := "Z", latitude := 0, longitude := 0 }

def startupWorld : SysState :=
  { users := [("e", ⟨"+911000000001", 4⟩)]
  , orders := [("oX", staleActiveOrder)]
  , redis := RedisState.empty
  , events := [] }

def startupEnv : List (String × String) := requiredEnvVars.map (fun v => (v, "set"))

/-- Decidable equality for Except results, used to evaluate the engine's
fallible operations on concrete inputs. -/
instance {ε α : Type} [DecidableEq ε] [DecidableEq α] : DecidableEq (Except ε α) := fun a b =>
  match a, b with
  | .error e, .error f =>
    match decEq e f with
    | isTrue h => isTrue (by rw [h])
    | isFalse h => isFalse (fun hh => by cases hh; exact h rfl)
  | .ok x, .ok y =>
    match decEq x y with
    | isTrue h => isTrue (by rw [h])
    | isFalse h => isFalse (fun hh => by cases hh; exact h rfl)
  | .error _, .ok _ => isFalse (fun hh => by cases hh)
  | .ok _, .error _ => isFalse (fun hh => by cases hh)

/-! ## Helper lemmas -/

theorem lookup_cons_ite {κ α : Type} [BEq κ] (a k : κ) (b : α) (es : List (κ × α)) :
    ((k, b) :: es).lookup a = if a == k then some b else es.lookup a := by
  rw [List.lookup_cons]
  cases h : a == k <;> simp [h]

theorem lookup_setAssoc {κ α : Type} [BEq κ] [LawfulBEq κ]
    (l : List (κ × α)) (k k' : κ) (v : α) :
    (setAssoc l k v).lookup k' = if k' == k then some v else l.lookup k' := by
  induction l with
  | nil => simp [setAssoc, lookup_cons_ite]
  | cons p rest ih =>
    obtain ⟨pk, pv⟩ := p
    by_cases h : pk == k
    · have hpk : pk = k := eq_of_beq h
      subst hpk
      rw [show setAssoc ((pk, pv) :: rest) pk v = (pk, v) :: rest by simp [setAssoc]]
      rw [lookup_cons_ite, lookup_cons_ite]
      by_cases h2 : k' == pk <;> simp [h2]
    · rw [show setAssoc ((pk, pv) :: rest) k v = (pk, pv) :: setAssoc rest k v by
        simp [setAssoc, h]]
      rw [lookup_cons_ite, lookup_cons_ite, ih]
      by_cases h2 : k' == pk
      · have hk : k' = pk := eq_of_beq h2
        subst hk
        simp [h, h2]
      · simp [h2]

theorem lookup_setAssoc_self {κ α : Type} [BEq κ] [LawfulBEq κ]
    (l : List (κ × α)) (k : κ) (v : α) :
    (setAssoc l k v).lookup k = some v := by
  simp [lookup_setAssoc]

theorem lookup_setAssoc_ne {κ α : Type} [BEq κ] [LawfulBEq κ]
    (l : List (κ × α)) (k k' : κ) (v : α) (h : k' ≠ k) :
    (setAssoc l k v).lookup k' = l.lookup k' := by
  simp [lookup_setAssoc, h]

theorem pmLookup_pmSet_self (pm : PledgeMap) (u : UserId) (v : Int) :
    pmLookup (pmSet pm u v) u = some v :=
  lookup_setAssoc_self pm u v

theorem smembers_setPlain (r : RedisState) (k k' : String) (v : Order) :
    (r.setPlain k v).smembers k' = r.smembers k' := rfl

theorem sadd_self_mem (r : RedisState) (k : String) (u : UserId) :
    u ∈ (r.sadd k u).smembers k := by
  unfold RedisState.sadd RedisState.smembers
  simp only [lookup_setAssoc_self, Option.getD_some]
  by_cases h : u ∈ ((r.sets.lookup k).getD ⟨[], none⟩).members
  · simp [h]
  · simp [h]

theorem refundEach_lookup (ids : List UserId) (users : UsersTable) (u : UserId)
    (hnd : ids.Nodup) :
    (refundEach users ids).lookup u =
      (users.lookup u).map (fun row =>
        { row with credits := row.credits + (if u ∈ ids then 1 else 0) }) := by
  induction ids generalizing users with
  | nil =>
    cases h : users.lookup u <;> simp [refundEach, h]
  | cons i rest ih =>
    have hnd' : rest.Nodup := hnd.of_cons
    have hstep : refundEach users (i :: rest) =
        refundEach (match addCredits users i CREDIT_COST_PER_ACTION with
                    | .ok acc' => acc'
                    | .error _ => users) rest := by
      simp [refundEach]
    rw [hstep]
    cases hi : users.lookup i with
    | none =>
      rw [show (match addCredits users i CREDIT_COST_PER_ACTION with
                | .ok acc' => acc'
                | .error _ => users) = users by simp [addCredits, hi]]
      rw [ih users hnd']
      by_cases hu : u = i
      · subst hu; simp [hi]
      · cases h : users.lookup u <;> simp [h, hu]
    | some irow =>
      rw [show (match addCredits users i CREDIT_COST_PER_ACTION with
                | .ok acc' => acc'
                | .error _ => users) =
            setAssoc users i { irow with credits := irow.credits + CREDIT_COST_PER_ACTION }
            by simp [addCredits, hi]]
      rw [ih _ hnd']
      by_cases hu : u = i
      · subst hu
        have hnotin : u ∉ rest := (List.nodup_cons.mp hnd).1
        simp [lookup_setAssoc_self, hi, hnotin, CREDIT_COST_PER_ACTION]
      · rw [lookup_setAssoc_ne _ _ _ _ hu]
        cases h : users.lookup u <;> simp [h, hu]

/-! ## Claim theorems -/

/-- C2 (amended): when handleOrderExpiry finds the order row, the users
credited one unit are exactly the creator plus every key of pledge_map other
than the creator — i.e. keys(pledge_map) ∪ {creator} — each exactly once,
provided the creator's refund succeeds (a creator-refund failure aborts the
whole fan-out, while a failure for a non-creator pledger is swallowed and
the loop continues). -/
theorem handleOrderExpiry_credits_keys_and_creator (s : SysState) (orderId : OrderId)
    (order : Order) (crow : UserRow)
    (hord : s.orders.lookup orderId = some order)
    (hnodup : (order.pledgeMap.map Prod.fst).Nodup)
    (hcrow : s.users.lookup order.creatorId = some crow) :
    ∃ s1, handleOrderExpiry s orderId = .ok s1 ∧
      ∀ u row, s.users.lookup u = some row →
        (s1.users.lookup u).map UserRow.credits =
          some (row.credits +
            (if u = order.creatorId ∨ u ∈ order.pledgeMap.map Prod.fst then 1 else 0)) := by
  have hadd : addCredits s.users order.creatorId CREDIT_COST_PER_ACTION =
      .ok (setAssoc s.users order.creatorId
            { crow with credits := crow.credits + CREDIT_COST_PER_ACTION }) := by
    simp [addCredits, hcrow]
  have hex : ∃ s1, handleOrderExpiry s orderId = .ok s1 := by
    simp only [handleOrderExpiry, hord, hadd]
    exact ⟨_, rfl⟩
  obtain ⟨s1, heq⟩ := hex
  refine ⟨s1, heq, ?_⟩
  simp only [handleOrderExpiry, hord, hadd, Except.ok.injEq] at heq
  subst heq
  intro u row hrow
  have hnd : ((order.pledgeMap.map Prod.fst).filter
      (fun i => i ≠ order.creatorId)).Nodup := hnodup.filter _
  dsimp only
  rw [refundEach_lookup _ _ _ hnd]
  by_cases hu : u = order.creatorId
  · have hrc : row = crow := by
      rw [hu] at hrow
      rw [hrow] at hcrow
      exact Option.some_inj.mp hcrow
    have hnotin : order.creatorId ∉ (order.pledgeMap.map Prod.fst).filter
        (fun i => i ≠ order.creatorId) := by
      simp [List.mem_filter]
    rw [hu, lookup_setAssoc_self]
    simp [hnotin, hrc, CREDIT_COST_PER_ACTION]
  · rw [lookup_setAssoc_ne _ _ _ _ hu, hrow]
    by_cases hmem : u ∈ order.pledgeMap.map Prod.fst
    · have hin : u ∈ (order.pledgeMap.map Prod.fst).filter (fun i => i ≠ order.creatorId) := by
        simp [List.mem_filter, hmem, hu]
      simp [hin, hmem, hu, CREDIT_COST_PER_ACTION]
    · have hnin : u ∉ (order.pledgeMap.map Prod.fst).filter (fun i => i ≠ order.creatorId) := by
        simp [List.mem_filter, hmem]
      simp [hnin, hmem, hu, CREDIT_COST_PER_ACTION]

/-- C2 witness: the amended statement applied to the concrete world of order
"oA" (creator "c" holding 0 credits, never pledged; pledger "a" holding 0):
the creator ends with 1 credit. -/
theorem handleOrderExpiry_credits_keys_and_creator_witness :
    ∃ s1, handleOrderExpiry fanoutWorldA "oA" = .ok s1 ∧
      (s1.users.lookup "c").map UserRow.credits = some 1 := by
  obtain ⟨s1, h1, h2⟩ :=
    handleOrderExpiry_credits_keys_and_creator fanoutWorldA "oA" fanoutOrderA
      ⟨"+911000000003", 0⟩ (by decide) (by decide) (by decide)
  refine ⟨s1, h1, ?_⟩
  have := h2 "c" ⟨"+911000000003", 0⟩ (by decide)
  simpa using this

/-- C3: a scripted pledge that passes the guards (snapshot present, status
ACTIVE, total below the threshold) succeeds and accumulates additively: the
caller's pledge_map entry becomes its previous value (0 when absent) plus
pledge_amount and total_pledge grows by pledge_amount; for a user already
present the entry increases by pledge_amount with total_users unchanged; for
a new user total_users increases by exactly 1 and the user is in the
participants set after the script (unless the same step completed the order
and deleted that set). -/
theorem pledgeScript_additive_accumulation (r : RedisState) (key pk : String)
    (u : UserId) (amt : Int) (order : Order)
    (hget : r.getStr key = some order)
    (hact : order.status = OrderStatus.ACTIVE)
    (hlt : order.totalPledge < order.amountNeeded) :
    ∃ r1 upd, pledgeLuaScript r key pk u amt = (r1, .ok "Pledge successful" upd) ∧
      pmLookup upd.pledgeMap u = some ((pmLookup order.pledgeMap u).getD 0 + amt) ∧
      upd.totalPledge = order.totalPledge + amt ∧
      (∀ v, pmLookup order.pledgeMap u = some v →
        pmLookup upd.pledgeMap u = some (v + amt) ∧ upd.totalUsers = order.totalUsers) ∧
      (pmLookup order.pledgeMap u = none →
        upd.totalUsers = order.totalUsers + 1 ∧
        (upd.status ≠ OrderStatus.COMPLETED → u ∈ r1.smembers pk)) := by
  have hnge : ¬ (order.totalPledge ≥ order.amountNeeded) := not_le.mpr hlt
  simp only [pledgeLuaScript, hget, hact, hnge]
  simp only [ne_eq, not_true_eq_false, Bool.false_eq_true, if_false, ge_iff_le,
    if_neg hnge]
  refine ⟨_, _, rfl, ?_, rfl, ?_, ?_⟩
  · exact pmLookup_pmSet_self _ _ _
  · intro v hv
    refine ⟨?_, by simp [hv]⟩
    rw [pmLookup_pmSet_self]
    simp [hv]
  · intro hn
    refine ⟨by simp [hn], ?_⟩
    intro hnc
    have hA : ¬ (order.totalPledge + amt ≥ order.amountNeeded) := by
      intro hA
      exact hnc (by simp [ge_iff_le] at hA ⊢; simp [hA])
    simp only [hn, if_pos rfl] at hnc ⊢
    rw [if_neg (by simpa using hA)]
    rw [smembers_setPlain]
    exact sadd_self_mem _ _ _

/-- C3 witness: user "K" pledges 10 and then 15 to order "o5" (needing 100);
after the second scripted pledge the pledge_map entry is 25 and total_users
is 1, by the accumulation theorem applied to the state after the first
pledge. -/
theorem pledgeScript_additive_accumulation_witness :
    ∃ r2 upd2, pledgeLuaScript additiveStep1.1 (pfx (orderKey "o5"))
        (pfx (participantsKey "o5")) "K" 15 = (r2, .ok "Pledge successful" upd2) ∧
      pmLookup upd2.pledgeMap "K" = some 25 ∧ upd2.totalUsers = 1 := by
  obtain ⟨r2, upd2, heq, hacc, htp, hpres, hnew⟩ :=
    pledgeScript_additive_accumulation additiveStep1.1 (pfx (orderKey "o5"))
      (pfx (participantsKey "o5")) "K" 15
      { additiveOrder with pledgeMap := [("K", 10)], totalPledge := 10, totalUsers := 1 }
      (by decide) (by decide) (by decide)
  obtain ⟨hv, hu⟩ := hpres 10 (by decide)
  exact ⟨r2, upd2, heq, by simpa using hv, by simpa using hu⟩

/-- C7 (amended): in pledgeToOrder the debited credit is refunded exactly
when the scripted pledge reports failure OR a later step throws a
non-BadRequest error; in particular when the script succeeds and the durable
orderRepository.update fails, the credit IS refunded (the caller's balance is
restored) even though the pledge remains committed in the live cache. -/
theorem pledgeToOrder_refund_characterization (s : SysState) (userId : UserId)
    (dto : PledgeDto) (dbOk : Bool) (row : UserRow)
    (hrow : s.users.lookup userId = some row)
    (hcred : CREDIT_COST_PER_ACTION ≤ row.credits) :
    ((∃ m, (redisPledgeToOrder s.redis dto.orderId userId dto.pledgeAmount).2
          = ScriptOut.failed m) ∨ dbOk = false →
      ((pledgeToOrderService s userId dto dbOk).2.users.lookup userId).map UserRow.credits
        = some row.credits)
    ∧ ((∀ m, (redisPledgeToOrder s.redis dto.orderId userId dto.pledgeAmount).2
          ≠ ScriptOut.failed m) → dbOk = true →
      ((pledgeToOrderService s userId dto dbOk).2.users.lookup userId).map UserRow.credits
        = some (row.credits - 1))
    ∧ (dbOk = false → (∀ m, (redisPledgeToOrder s.redis dto.orderId userId dto.pledgeAmount).2
          ≠ ScriptOut.failed m) →
      (pledgeToOrderService s userId dto dbOk).2.redis
        = (redisPledgeToOrder s.redis dto.orderId userId dto.pledgeAmount).1) := by
  have hnotlt : ¬ (row.credits < CREDIT_COST_PER_ACTION) := not_lt.mpr hcred
  have huse : useCredits s.users userId CREDIT_COST_PER_ACTION =
      .ok (true, setAssoc s.users userId
            { row with credits := row.credits - CREDIT_COST_PER_ACTION }) := by
    simp [useCredits, hrow, hnotlt]
  have hlook : (setAssoc s.users userId
      { row with credits := row.credits - CREDIT_COST_PER_ACTION }).lookup userId
      = some { row with credits := row.credits - CREDIT_COST_PER_ACTION } :=
    lookup_setAssoc_self _ _ _
  cases hres : (redisPledgeToOrder s.redis dto.orderId userId dto.pledgeAmount).2 with
  | failed m =>
    refine ⟨fun _ => ?_, fun hall _ => absurd rfl (hall m),
            fun _ hall => absurd rfl (hall m)⟩
    simp only [pledgeToOrderService, huse, hres, addCredits, hlook]
    simp [lookup_setAssoc_self, CREDIT_COST_PER_ACTION]
  | ok m upd =>
    cases dbOk with
    | true =>
      refine ⟨?_, fun _ _ => ?_, ?_⟩
      · rintro (⟨m2, hm2⟩ | hfalse)
        · simp at hm2
        · simp at hfalse
      · simp only [pledgeToOrderService, huse, hres]
        by_cases hc : upd.status = OrderStatus.COMPLETED <;>
          simp [hc, hlook, CREDIT_COST_PER_ACTION, lookup_setAssoc_self]
      · intro h
        simp at h
    | false =>
      refine ⟨fun _ => ?_, ?_, fun _ _ => ?_⟩
      · simp only [pledgeToOrderService, huse, hres, addCredits, hlook]
        simp [lookup_setAssoc_self, CREDIT_COST_PER_ACTION]
      · intro _ hfalse
        simp at hfalse
      · simp [pledgeToOrderService, huse, hres, addCredits, hlook]

/-- C7 witness: the characterization applied to a world with no matching
order, where the scripted pledge fails with "Order not found": the caller's
balance is unchanged at 5. -/
theorem pledgeToOrder_refund_characterization_witness :
    ((pledgeToOrderService noOrderWorld "b" ⟨"oZ", 5⟩ true).2.users.lookup "b").map
        UserRow.credits = some 5 := by
  have h := (pledgeToOrder_refund_characterization noOrderWorld "b" ⟨"oZ", 5⟩ true
    ⟨"+911000000006", 5⟩ (by decide) (by decide)).1
    (Or.inl ⟨"Order not found", by decide⟩)
  simpa using h

/-- C8 (amended): for an order present in the live cache, a caller without a
(nonzero) pledge_map entry receives a NOT_FOUND error — though with the
message "Order not found or you are not a participant", which differs from
the nonexistent-order message "Order not found" — and a participant on an
ACTIVE order receives a view whose pledge_map contains only their own
entry. -/
theorem getOrderStatus_redaction (s : SysState) (userId : UserId) (orderId : OrderId)
    (order : Order)
    (hget : getOrderRedis s.redis orderId = some order) :
    ((pmLookup order.pledgeMap userId).getD 0 = 0 →
      (getOrderStatusService s userId orderId).1
        = .error (StatusErr.notFound "Order not found or you are not a participant"))
    ∧ (∀ v, pmLookup order.pledgeMap userId = some v → v ≠ 0 →
        order.status = OrderStatus.ACTIVE →
        ∃ view, (getOrderStatusService s userId orderId).1 = .ok view ∧
          view.order.pledgeMap = [(userId, v)] ∧
          view.order.id = order.id ∧ view.order.status = order.status) := by
  constructor
  · intro h0
    simp [getOrderStatusService, hget, h0]
  · intro v hv hvne hact
    have h0 : ¬ ((pmLookup order.pledgeMap userId).getD 0 = 0) := by
      simp [hv, hvne]
    have heq : (getOrderStatusService s userId orderId).1
        = .ok ⟨{ order with
            pledgeMap := [(userId, (pmLookup order.pledgeMap userId).getD 0)] },
            none, none⟩ := by
      simp [getOrderStatusService, hget, h0, hact]
    refine ⟨_, heq, ?_, rfl, rfl⟩
    simp [hv]

/-- C8 witness: participant "h" of the ACTIVE order "o4" (pledges h ↦ 20,
i ↦ 30) receives a view whose pledge_map is exactly [("h", 20)]. -/
theorem getOrderStatus_redaction_witness :
    ∃ view, (getOrderStatusService redactWorld "h" "o4").1 = .ok view ∧
      view.order.pledgeMap = [("h", 20)] := by
  obtain ⟨view, h1, h2, _⟩ :=
    (getOrderStatus_redaction redactWorld "h" "o4" redactOrder (by decide)).2
      20 (by decide) (by decide) (by decide)
  exact ⟨view, h1, h2⟩

/-- C1: handleOrderExpiry is claimed to be idempotent — a second invocation
finding the row already EXPIRED should return immediately without changing
state.  The code has no status gate: on the concrete order "o3" (creator e,
pledgers e and f), the first run sets the row EXPIRED and credits each
participant once (4 → 5), and a second run on the already-EXPIRED row credits
every participant again (5 → 6) instead of being a no-op. -/
theorem handleOrderExpiry_second_run_refunds_again :
    ((runExpiry expiryTwiceWorld "o3").orders.lookup "o3").map Order.status
        = some OrderStatus.EXPIRED
    ∧ ((runExpiry expiryTwiceWorld "o3").users.lookup "e").map UserRow.credits = some 5
    ∧ ((runExpiry expiryTwiceWorld "o3").users.lookup "f").map UserRow.credits = some 5
    ∧ ((runExpiry (runExpiry expiryTwiceWorld "o3") "o3").users.lookup "e").map UserRow.credits
        = some 6
    ∧ ((runExpiry (runExpiry expiryTwiceWorld "o3") "o3").users.lookup "f").map UserRow.credits
        = some 6
    ∧ handleOrderExpiry (runExpiry expiryTwiceWorld "o3") "o3"
        ≠ Except.ok (runExpiry expiryTwiceWorld "o3") := by
  decide

/-- C2 counterexample: the set of users credited by handleOrderExpiry is not
the key set of pledge_map.  Run A: order "oA" has pledge_map {a ↦ 10} and
creator "c" who never pledged; the code nevertheless credits "c" (0 → 1).
Run B: the creator row is missing, so the unguarded creator refund throws and
the fan-out aborts — pledger "b" (a remaining user) is never credited. -/
theorem handleOrderExpiry_refund_set_counterexample :
    ((runExpiry fanoutWorldA "oA").users.lookup "c").map UserRow.credits = some 1
    ∧ pmLookup fanoutOrderA.pledgeMap "c" = none
    ∧ handleOrderExpiry fanoutWorldB "oB" = Except.error "User not found"
    ∧ ((runExpiry fanoutWorldB "oB").users.lookup "b").map UserRow.credits = some 0 := by
  decide

/-- C4: a completing scripted pledge sets COMPLETED with total_pledge ≥
amount_needed and deletes the snapshot and participants set inside the
script, but the geo entry survives: the script removes member KEYS[1] (the
keyPrefix-rewritten "bundl:order:o1") from the literal key "orders:geo",
while the index actually lives at "bundl:orders:geo" with member
"order:o1". -/
theorem pledgeScript_completion_leaves_geo_entry :
    (scriptUpdated completionRun.2).map Order.status = some OrderStatus.COMPLETED
    ∧ (scriptUpdated completionRun.2).map (fun o => decide (o.amountNeeded ≤ o.totalPledge))
        = some true
    ∧ completionRun.1.getStr (pfx (orderKey "o1")) = none
    ∧ completionRun.1.sets.lookup (pfx (participantsKey "o1")) = none
    ∧ "order:o1" ∈ completionRedis0.geoMembers (pfx ordersGeoKey)
    ∧ "order:o1" ∈ completionRun.1.geoMembers (pfx ordersGeoKey) := by
  decide

/-- C5: after order "o8" expires, its cache entries are gone; but a
participant's getOrderStatus call re-stores the EXPIRED row into the live
cache (only COMPLETED rows are guarded against re-adding), after which
getActiveOrdersNear at the order's own coordinates returns a snapshot whose
status is EXPIRED. -/
theorem findOrdersNear_returns_expired_snapshot :
    (staleAfterExpiry.orders.lookup "o8").map Order.status = some OrderStatus.EXPIRED
    ∧ getOrderRedis staleAfterExpiry.redis "o8" = none
    ∧ (getOrderRedis staleAfterStatus.redis "o8").map Order.status
        = some OrderStatus.EXPIRED
    ∧ (findOrdersNear staleAfterStatus.redis 20 10 5).map Order.status
        = [OrderStatus.EXPIRED] := by
  decide

/-- C6: a non-completing scripted pledge writes the snapshot back with a
plain SET (no KEEPTTL), so the remaining TTL is discarded rather than
preserved: key "bundl:order:o6" starts with TTL 600 and ends with no TTL at
all, while only the pledge fields of the snapshot change. -/
theorem pledgeScript_clears_ttl :
    (ttlRedis0.strings.lookup (pfx (orderKey "o6"))).map StrEntry.ttl = some (some 600)
    ∧ ttlRun.2 = ScriptOut.ok "Pledge successful"
        { ttlOrder with pledgeMap := [("h", 40)], totalPledge := 40, totalUsers := 1 }
    ∧ (ttlRun.1.strings.lookup (pfx (orderKey "o6"))).map StrEntry.ttl = some none := by
  decide

/-- C7 counterexample: user "b" (5 credits) pledges 40 to active order "o7";
the scripted pledge succeeds and the durable orderRepository.update throws.
The outer catch sees a non-BadRequest error and refunds the debited credit,
so "b" ends with 5 credits again — although the pledge is committed in the
live cache (total_pledge 40) — contradicting the claim that the credit is
refunded only when the script reports failure. -/
theorem pledgeToOrder_refunds_on_db_failure :
    dbFailRun.1 = Except.error (PledgeErr.storeError "db update failed")
    ∧ (dbFailRun.2.users.lookup "b").map UserRow.credits = some 5
    ∧ (getOrderRedis dbFailRun.2.redis "o7").map Order.totalPledge = some 40 := by
  decide

/-- C8 counterexample: a non-participant ("j") asking for order "o4" receives
NotFoundException("Order not found or you are not a participant"), while a
nonexistent order yields NotFoundException("Order not found"); the two error
responses differ, so the non-participant answer is distinguishable from a
nonexistent order and discloses existence. -/
theorem getOrderStatus_messages_distinguishable :
    (getOrderStatusService redactWorld "j" "o4").1
        = Except.error (StatusErr.notFound "Order not found or you are not a participant")
    ∧ (getOrderStatusService redactWorld "j" "oZ").1
        = Except.error (StatusErr.notFound "Order not found")
    ∧ (getOrderStatusService redactWorld "j" "o4").1
        ≠ (getOrderStatusService redactWorld "j" "oZ").1 := by
  decide

/-- C9: the watcher fires for every expired key starting with
"bundl:order:", not only for order snapshot keys: the snapshot key
"bundl:order:o9" yields OrderExpired("o9") as claimed, but the participants
key "bundl:order:o9:participants" — stored with the same TTL by storeOrder —
also yields OrderExpired("o9") instead of no event. -/
theorem expiryWatcher_fires_for_participants_key :
    expiryMessageHandler keyeventChannel "bundl:order:o9" = [Evt.orderExpiredEmitted "o9"]
    ∧ expiryMessageHandler keyeventChannel "bundl:order:o9:participants"
        = [Evt.orderExpiredEmitted "o9"]
    ∧ expiryMessageHandler keyeventChannel "bundl:order:o9:participants" ≠ []
    ∧ (ttlRedis0.strings.lookup (pfx (orderKey "o6"))).map StrEntry.ttl = some (some 600)
    ∧ (ttlRedis0.sets.lookup (pfx (participantsKey "o6"))).map SetEntry.ttl
        = some (some 600) := by
  decide

/-- C10: process startup performs no reconciliation scan: the two
module-init hooks leave the user table, the order table and the cache
exactly as they were for every environment and state; in particular, with
every required env var set and the durable store holding the ACTIVE order
"oX" whose TTL fired while the process was down, startup leaves "oX" ACTIVE,
refunds nobody and emits no event. -/
theorem systemStartup_no_reconciliation :
    (∀ env s, (systemStartup env s).sys = s)
    ∧ (systemStartup startupEnv startupWorld).started = true
    ∧ ((systemStartup startupEnv startupWorld).sys.orders.lookup "oX").map Order.status
        = some OrderStatus.ACTIVE
    ∧ ((systemStartup startupEnv startupWorld).sys.users.lookup "e").map UserRow.credits
        = some 4
    ∧ (systemStartup startupEnv startupWorld).sys.events = [] := by
  refine ⟨fun env s => ?_, by decide, by decide, by decide, by decide⟩
  unfold systemStartup
  split <;> rfl

end Bundl
